import Mathlib

/-!
Verification of the Figma-Write-MCP relay core.

Shallow embedding of the MCP-server relay found in the server source file
(the figma-bridge v2.0.0 server): the pending-request table
`pendingRequests`, the peer connection slot `figmaPlugin`, the WebSocket
event handlers (connection, message / handlePluginMessage, close), the
dispatch function `sendToPlugin`, and the MCP tool facade (the ListTools
and CallTool request handlers).

State mutation is modelled by explicit state passing.  Invoking a pending
request continuation (resolving or rejecting the promise callbacks stored
in `pendingRequests`) is modelled by appending a `(requestId, Outcome)`
record to a `fires` log; scheduling a setTimeout appends to a `timers`
log, and a WebSocket send appends to a `sent` log.  The three completion
handlers are expressed as lists of primitive `Action`s in the statement
order of the source, interpreted by a fold, so that the relative order of
table removal and continuation invocation inside one handler is visible.
-/

namespace FigmaBridge

/-- Values of the readyState field of a ws WebSocket (OPEN etc.). -/
inductive ReadyState
  | connecting
  | opened
  | closing
  | closed
deriving DecidableEq, Repr

/-- A downstream WebSocket connection handle.  The field `connId`
identifies the connection object so that routing of sends can be
observed. -/
structure Conn where
  connId : Nat
  readyState : ReadyState
deriving DecidableEq, Repr

/-- What happened to the continuation pair of one pending request: the
stored resolve was called with the result payload (possibly undefined,
i.e. `none`), or the stored reject was called with an error message. -/
inductive Outcome
  | resolved (result : Option String)
  | rejected (error : String)
deriving DecidableEq, Repr

/-- The wire message parsed in handlePluginMessage, with fields
type, requestId, result, error, stack (all but type optional). -/
structure PluginMessage where
  type : String
  requestId : Option String
  result : Option String
  error : Option String
  stack : Option String
deriving DecidableEq, Repr

/-- JavaScript truthiness of an optional string field: the field is
present and is not the empty string (the empty string is falsy in JS). -/
def truthy : Option String → Bool
  | none => false
  | some s => s != ""

/-- The constant RESPONSE_TIMEOUT = 30000, commented 30 seconds in the
source. -/
def RESPONSE_TIMEOUT : Nat := 30000

/-- The not-connected error text used both by the reject in
`sendToPlugin` and as the message field of get_figma_state when no
plugin is connected (the two sites use the identical string). -/
def notConnectedMsg : String :=
  "Figma plugin is not connected. Please open Figma and run the Figma Bridge plugin."

/-- The error text of the timeout rejection in `sendToPlugin`. -/
def timeoutMsg : String := "Request timed out waiting for Figma plugin response"

/-- The error text of the rejection issued by the close handler. -/
def disconnectMsg : String := "Figma plugin disconnected"

/-- The error message built in handlePluginMessage for a truthy error
field: the error text, followed (when the stack field is truthy) by a
newline, the words Stack trace, a colon, a newline and the stack text. -/
def remoteErrorMsg (error : String) (stack : Option String) : String :=
  error ++ (if truthy stack then "\nStack trace:\n" ++ stack.getD "" else "")

/-- Relay state: the module-level mutable variables `figmaPlugin` and
`pendingRequests` (keys only — the stored continuations are per-request
promise callbacks, so an invocation is fully identified by the key and is
logged in `fires`), plus observation logs for continuation invocations,
scheduled timeouts and transmitted frames. -/
structure RelayState where
  figmaPlugin : Option Conn
  pendingRequests : List String
  fires : List (String × Outcome)
  timers : List (String × Nat)
  sent : List (Nat × String)
deriving DecidableEq, Repr

/-- Primitive effects performed by the three completion handlers, in
source statement order. -/
inductive Action
  | removeEntry (rid : String)
  | invoke (rid : String) (o : Outcome)
  | clearSlot
deriving DecidableEq, Repr

/-- Effect of one primitive action on the relay state. -/
def applyAction (s : RelayState) : Action → RelayState
  | .removeEntry rid => { s with pendingRequests := s.pendingRequests.erase rid }
  | .invoke rid o => { s with fires := s.fires ++ [(rid, o)] }
  | .clearSlot => { s with figmaPlugin := none }

/-- Run a list of primitive actions left to right. -/
def runActions (s : RelayState) (acts : List Action) : RelayState :=
  acts.foldl applyAction s

/-- Action trace of handlePluginMessage: if the message is an
execution_result with a truthy requestId that is present in
`pendingRequests`, delete the entry, then reject (truthy error field) or
resolve; otherwise do nothing. -/
def handlePluginMessageActions (s : RelayState) (m : PluginMessage) : List Action :=
  if m.type == "execution_result" && truthy m.requestId then
    match m.requestId with
    | some rid =>
        if rid ∈ s.pendingRequests then
          [.removeEntry rid,
           .invoke rid
             (if truthy m.error then
                .rejected (remoteErrorMsg (m.error.getD "") m.stack)
              else
                .resolved m.result)]
        else []
    | none => []
  else []

/-- handlePluginMessage as a state transformer. -/
def handlePluginMessage (s : RelayState) (m : PluginMessage) : RelayState :=
  runActions s (handlePluginMessageActions s m)

/-- Action trace of the setTimeout callback scheduled by `sendToPlugin`
for a request identifier: if the entry is still present, delete it, then
reject with the timeout error; otherwise do nothing. -/
def timeoutActions (s : RelayState) (rid : String) : List Action :=
  if rid ∈ s.pendingRequests then
    [.removeEntry rid, .invoke rid (.rejected timeoutMsg)]
  else []

/-- The timeout callback as a state transformer. -/
def timeoutFired (s : RelayState) (rid : String) : RelayState :=
  runActions s (timeoutActions s rid)

/-- Action trace of the close handler: set `figmaPlugin` to null, then
for each pending entry in table order call reject and then delete the
entry (note: reject first, delete second, exactly as the loop body is
written in the source). -/
def closeActions (s : RelayState) : List Action :=
  Action.clearSlot ::
    s.pendingRequests.flatMap
      (fun id => [.invoke id (.rejected disconnectMsg), .removeEntry id])

/-- The close handler as a state transformer. -/
def closeHandler (s : RelayState) : RelayState :=
  runActions s (closeActions s)

/-- The connection handler body relevant to relay state: it assigns the
new WebSocket to `figmaPlugin` unconditionally (nothing else in it
touches relay state). -/
def connectionHandler (s : RelayState) (ws : Conn) : RelayState :=
  { s with figmaPlugin := some ws }

/-- The connectivity guard of `sendToPlugin` and of get_figma_state:
`figmaPlugin` is non-null and its readyState equals OPEN. -/
def isOpen : Option Conn → Bool
  | none => false
  | some c => c.readyState == .opened

/-- Key update of the pendingRequests Map: a fresh key appends in
insertion order; an existing key keeps its position. -/
def insertId (l : List String) (rid : String) : List String :=
  if rid ∈ l then l else l ++ [rid]

/-- Synchronous result of the promise executor of `sendToPlugin`. -/
inductive SendResult
  | rejectedNotConnected (msg : String)
  | registered (rid : String)
deriving DecidableEq, Repr

/-- The dispatch function `sendToPlugin`: if `figmaPlugin` is null or
not OPEN, reject immediately and return; otherwise register the fresh
requestId in `pendingRequests`, schedule a RESPONSE_TIMEOUT timer, and
send the frame on the connection.  The fresh UUID is passed in as
`rid`. -/
def sendToPlugin (s : RelayState) (rid : String) : RelayState × SendResult :=
  match s.figmaPlugin with
  | none => (s, .rejectedNotConnected notConnectedMsg)
  | some conn =>
      if conn.readyState != .opened then
        (s, .rejectedNotConnected notConnectedMsg)
      else
        let s1 := { s with pendingRequests := insertId s.pendingRequests rid }
        let s2 := { s1 with timers := s1.timers ++ [(rid, RESPONSE_TIMEOUT)] }
        let s3 := { s2 with sent := s2.sent ++ [(conn.connId, rid)] }
        (s3, .registered rid)

/-- The three event kinds the completion paths react to, plus acceptance
of a new connection. -/
inductive Event
  | message (m : PluginMessage)
  | timer (rid : String)
  | close
  | connect (ws : Conn)

/-- One event-handler invocation. -/
def step (s : RelayState) : Event → RelayState
  | .message m => handlePluginMessage s m
  | .timer rid => timeoutFired s rid
  | .close => closeHandler s
  | .connect ws => connectionHandler s ws

/-- Run a sequence of events. -/
def run (s : RelayState) (es : List Event) : RelayState :=
  es.foldl step s

/-- Number of continuation invocations recorded for identifier `i`. -/
def countFires (i : String) (fires : List (String × Outcome)) : Nat :=
  (fires.filter (fun p => p.1 == i)).length

/-- Scan an action trace given the initially present entry keys: `true`
iff some invoke of an identifier occurs while the entry of that
identifier is still present (i.e. before the corresponding remove). -/
def invokesWhilePresent : List String → List Action → Bool
  | _, [] => false
  | pend, Action.removeEntry rid :: rest => invokesWhilePresent (pend.erase rid) rest
  | pend, Action.invoke rid _ :: rest =>
      decide (rid ∈ pend) || invokesWhilePresent pend rest
  | pend, Action.clearSlot :: rest => invokesWhilePresent pend rest

/-- An execution_result response envelope carrying a result payload and
no error. -/
def execResultMsg (rid : String) (r : Option String) : PluginMessage :=
  { type := "execution_result", requestId := some rid, result := r,
    error := none, stack := none }

/-!
The MCP tool facade: the ListTools handler (a constant list of tool
declarations — its body reads no relay state) and the CallTool handler
(a switch on the tool name wrapped in a try/catch that formats any
thrown error as a structured isError response).
-/

/-- One tool declaration of the ListTools response: the tool name and
its input schema (property names and required property names; every
schema in the source has top-level type object). -/
structure ToolDecl where
  name : String
  schemaProperties : List String
  schemaRequired : List String
deriving DecidableEq, Repr

/-- The constant tools array returned by the ListTools handler. -/
def toolsList : List ToolDecl :=
  [{ name := "get_figma_state", schemaProperties := [], schemaRequired := [] },
   { name := "get_design_context",
     schemaProperties := ["includeLibraryStyles", "fontFamilyFilter"],
     schemaRequired := [] },
   { name := "execute_figma_command",
     schemaProperties := ["code"], schemaRequired := ["code"] },
   { name := "get_document_manifest", schemaProperties := [], schemaRequired := [] },
   { name := "deep_scan_page",
     schemaProperties := ["pageId"], schemaRequired := ["pageId"] },
   { name := "get_selection_context", schemaProperties := [], schemaRequired := [] },
   { name := "export_node_image",
     schemaProperties := ["nodeId", "scale", "format"], schemaRequired := [] },
   { name := "analyze_patterns",
     schemaProperties := ["pageId"], schemaRequired := [] },
   { name := "clone_node",
     schemaProperties := ["targetNodeId", "newName", "offsetX", "offsetY", "targetParentId"],
     schemaRequired := ["targetNodeId"] },
   { name := "scan_presentation",
     schemaProperties := ["slideId", "forceRescan"], schemaRequired := [] },
   { name := "fill_slide",
     schemaProperties := ["slideId", "slots"], schemaRequired := ["slideId", "slots"] },
   { name := "configure_presentation",
     schemaProperties := ["cover", "toc", "separators", "end"], schemaRequired := [] },
   { name := "get_presentation_cache", schemaProperties := [], schemaRequired := [] }]

/-- The ListTools request handler.  Its body in the source is a literal
return of the constant tools array; it reads neither `figmaPlugin` nor
`pendingRequests`, which the state parameter being ignored makes
explicit. -/
def listToolsHandler (_ : RelayState) : List ToolDecl := toolsList

/-- The distinct JSON payload shapes produced by the CallTool handler:
the get_figma_state status object, a stringified dispatch result, or the
error object built in the catch block. -/
inductive ContentText
  | stateJson (connected : Bool) (ready : Bool) (message : String)
  | resultJson (result : Option String)
  | errorJson (message : String)
deriving DecidableEq, Repr

/-- The value returned by the CallTool handler: one text content item
and the isError flag (absent in the source on success, present and true
in the catch block). -/
structure ToolCallResult where
  content : ContentText
  isError : Bool
deriving DecidableEq, Repr

/-- The message field of get_figma_state when the plugin is connected. -/
def connectedReadyMsg : String := "Figma plugin is connected and ready"

/-- The fallback object stringified by get_presentation_cache when the
dispatch resolved with an undefined result: success false, message No
response. -/
def noResponseJson : String :=
  "\x7b \"success\": false, \"message\": \"No response\" \x7d"

/-- A successful dispatch case of the CallTool switch: stringify the
resolved value into the text content. -/
def dispatchSuccess (r : Option String) : ToolCallResult :=
  { content := .resultJson r, isError := false }

/-- Awaiting the promise of `sendToPlugin` inside the try block: a
resolution yields the success result; a rejection throws (surfaces as
the error of the Except). -/
def awaitDispatch : Outcome → Except String ToolCallResult
  | .resolved r => .ok (dispatchSuccess r)
  | .rejected e => .error e

/-- The try block of the CallTool handler: the switch on the tool name.
Every case except get_figma_state awaits `sendToPlugin` (the argument
shaping that each case performs on its request payload does not touch
relay state and is not modelled); the default case throws Unknown tool.
The parameter `o` is the outcome of the awaited dispatch promise. -/
def tryCallTool (s : RelayState) (name : String) (o : Outcome) :
    Except String ToolCallResult :=
  match name with
  | "get_figma_state" =>
      let isConnected := isOpen s.figmaPlugin
      .ok { content := .stateJson isConnected isConnected
              (if isConnected then connectedReadyMsg else notConnectedMsg),
            isError := false }
  | "get_design_context" => awaitDispatch o
  | "execute_figma_command" => awaitDispatch o
  | "get_document_manifest" => awaitDispatch o
  | "deep_scan_page" => awaitDispatch o
  | "get_selection_context" => awaitDispatch o
  | "export_node_image" => awaitDispatch o
  | "analyze_patterns" => awaitDispatch o
  | "clone_node" => awaitDispatch o
  | "scan_presentation" => awaitDispatch o
  | "fill_slide" => awaitDispatch o
  | "configure_presentation" => awaitDispatch o
  | "get_presentation_cache" =>
      match o with
      | .resolved r => .ok (dispatchSuccess (some (r.getD noResponseJson)))
      | .rejected e => .error e
  | _ => .error ("Unknown tool: " ++ name)

/-- The names of the thirteen cases of the CallTool switch. -/
def knownToolNames : List String :=
  ["get_figma_state", "get_design_context", "execute_figma_command",
   "get_document_manifest", "deep_scan_page", "get_selection_context",
   "export_node_image", "analyze_patterns", "clone_node",
   "scan_presentation", "fill_slide", "configure_presentation",
   "get_presentation_cache"]

/-- The CallTool handler: run the try block; the catch block converts a
thrown error into a structured response with the stringified error
message and isError true. -/
def callToolHandler (s : RelayState) (name : String) (o : Outcome) : ToolCallResult :=
  match tryCallTool s name o with
  | .ok r => r
  | .error msg => { content := .errorJson msg, isError := true }

/-- A concrete relay state with one pending request and no connection,
used by witnesses. -/
def sampleState : RelayState :=
  { figmaPlugin := none, pendingRequests := ["req-1"],
    fires := [], timers := [], sent := [] }

/-- A concrete relay state with two outstanding requests. -/
def sampleState2 : RelayState :=
  { figmaPlugin := none, pendingRequests := ["req-A", "req-B"],
    fires := [], timers := [], sent := [] }

/-- A concrete open connection handle. -/
def connX : Conn := { connId := 1, readyState := .opened }

/-- A second concrete open connection handle. -/
def connY : Conn := { connId := 2, readyState := .opened }

/-- Single-resolution invariant for identifier `i`: the table keys are
distinct (they are Map keys), and either the entry of `i` is still in
the table with no continuation fired yet, or it is gone and exactly one
continuation invocation for `i` has been recorded. -/
def OneShot (i : String) (s : RelayState) : Prop :=
  s.pendingRequests.Nodup ∧
    ((i ∈ s.pendingRequests ∧ countFires i s.fires = 0) ∨
     (i ∉ s.pendingRequests ∧ countFires i s.fires = 1))

/-!
Helper lemmas about the embedding, shared by the claim theorems.
-/

theorem countFires_append (i : String) (l₁ l₂ : List (String × Outcome)) :
    countFires i (l₁ ++ l₂) = countFires i l₁ + countFires i l₂ := by
  simp [countFires, List.filter_append]

theorem countFires_single (i rid : String) (o : Outcome) :
    countFires i [(rid, o)] = if rid = i then 1 else 0 := by
  by_cases h : rid = i <;> simp [countFires, h]

theorem countFires_map_rejected (i : String) (l : List String) (e : String) :
    countFires i (l.map (fun id => (id, Outcome.rejected e))) = l.count i := by
  induction l with
  | nil => simp [countFires]
  | cons a t ih =>
      by_cases h : a = i <;>
        simp [countFires, List.count_cons, h, Nat.add_comm] at ih ⊢ <;>
        omega

theorem runActions_pair (s : RelayState) (rid : String) (o : Outcome) :
    runActions s [Action.removeEntry rid, Action.invoke rid o]
      = { s with
          pendingRequests := s.pendingRequests.erase rid
          fires := s.fires ++ [(rid, o)] } := rfl

theorem handlePluginMessage_eq_of_hit (s : RelayState) (m : PluginMessage) (rid : String)
    (htype : m.type = "execution_result") (hrid : m.requestId = some rid)
    (hne : rid ≠ "") (hmem : rid ∈ s.pendingRequests) :
    handlePluginMessage s m
      = { s with
          pendingRequests := s.pendingRequests.erase rid
          fires := s.fires ++ [(rid,
            if truthy m.error then
              Outcome.rejected (remoteErrorMsg (m.error.getD "") m.stack)
            else Outcome.resolved m.result)] } := by
  unfold handlePluginMessage handlePluginMessageActions
  rw [htype, hrid]
  simp only [truthy, beq_self_eq_true, Bool.true_and]
  rw [if_pos (by simp [hne]), if_pos hmem]
  exact runActions_pair s rid _

theorem handlePluginMessage_eq_of_miss (s : RelayState) (m : PluginMessage) (rid : String)
    (hrid : m.requestId = some rid) (hmem : rid ∉ s.pendingRequests) :
    handlePluginMessage s m = s := by
  unfold handlePluginMessage handlePluginMessageActions
  rw [hrid]
  split
  · simp [hmem, runActions]
  · rfl

theorem timeoutFired_eq_of_hit (s : RelayState) (rid : String)
    (hmem : rid ∈ s.pendingRequests) :
    timeoutFired s rid
      = { s with
          pendingRequests := s.pendingRequests.erase rid
          fires := s.fires ++ [(rid, Outcome.rejected timeoutMsg)] } := by
  unfold timeoutFired timeoutActions
  rw [if_pos hmem]
  exact runActions_pair s rid _

theorem timeoutFired_eq_of_miss (s : RelayState) (rid : String)
    (hmem : rid ∉ s.pendingRequests) :
    timeoutFired s rid = s := by
  unfold timeoutFired timeoutActions
  rw [if_neg hmem]
  rfl

theorem runActions_drainLoop (l : List String) (s : RelayState)
    (hnd : l.Nodup) (hp : s.pendingRequests = l) :
    runActions s
        (l.flatMap (fun id => [Action.invoke id (Outcome.rejected disconnectMsg),
                               Action.removeEntry id]))
      = { s with
          pendingRequests := []
          fires := s.fires ++ l.map (fun id => (id, Outcome.rejected disconnectMsg)) } := by
  induction l generalizing s with
  | nil => cases s; simp_all [runActions]
  | cons a t ih =>
      rw [List.flatMap_cons]
      show runActions
          { s with
            pendingRequests := s.pendingRequests.erase a
            fires := s.fires ++ [(a, Outcome.rejected disconnectMsg)] } _ = _
      show runActions _
          (t.flatMap fun id => [Action.invoke id (Outcome.rejected disconnectMsg),
                                Action.removeEntry id]) = _
      rw [ih { s with
               pendingRequests := s.pendingRequests.erase a
               fires := s.fires ++ [(a, Outcome.rejected disconnectMsg)] }
            hnd.of_cons (by simp [hp])]
      simp [List.append_assoc]

theorem closeHandler_eq (s : RelayState) (hnd : s.pendingRequests.Nodup) :
    closeHandler s
      = { s with
          figmaPlugin := none
          pendingRequests := []
          fires := s.fires ++
            s.pendingRequests.map (fun id => (id, Outcome.rejected disconnectMsg)) } := by
  unfold closeHandler closeActions
  show runActions { s with figmaPlugin := none } _ = _
  rw [runActions_drainLoop s.pendingRequests { s with figmaPlugin := none } hnd rfl]

theorem oneShot_complete (s : RelayState) (i rid : String) (o : Outcome)
    (hmem : rid ∈ s.pendingRequests) (h : OneShot i s) :
    OneShot i { s with
                pendingRequests := s.pendingRequests.erase rid
                fires := s.fires ++ [(rid, o)] } := by
  obtain ⟨hnd, hcase⟩ := h
  refine ⟨hnd.erase rid, ?_⟩
  show (i ∈ s.pendingRequests.erase rid ∧
          countFires i (s.fires ++ [(rid, o)]) = 0) ∨
       (i ∉ s.pendingRequests.erase rid ∧
          countFires i (s.fires ++ [(rid, o)]) = 1)
  rw [countFires_append, countFires_single]
  by_cases hri : rid = i
  · subst hri
    rcases hcase with ⟨_, hc⟩ | ⟨hout, _⟩
    · exact Or.inr ⟨hnd.not_mem_erase, by simp [hc]⟩
    · exact absurd hmem hout
  · rcases hcase with ⟨hin, hc⟩ | ⟨hout, hc⟩
    · exact Or.inl ⟨(List.mem_erase_of_ne fun he => hri he.symm).2 hin, by simp [hc, hri]⟩
    · exact Or.inr ⟨fun hmem2 => hout (List.mem_of_mem_erase hmem2), by simp [hc, hri]⟩

theorem oneShot_step (s : RelayState) (i : String) (e : Event)
    (h : OneShot i s) : OneShot i (step s e) := by
  cases e with
  | message m =>
      show OneShot i (handlePluginMessage s m)
      unfold handlePluginMessage handlePluginMessageActions
      split
      · split
        · split
          · rw [runActions_pair]
            exact oneShot_complete s i _ _ (by assumption) h
          · exact h
        · exact h
      · exact h
  | timer rid =>
      show OneShot i (timeoutFired s rid)
      unfold timeoutFired timeoutActions
      split
      · rw [runActions_pair]
        exact oneShot_complete s i _ _ (by assumption) h
      · exact h
  | close =>
      show OneShot i (closeHandler s)
      obtain ⟨hnd, hcase⟩ := h
      rw [closeHandler_eq s hnd]
      refine ⟨List.nodup_nil, Or.inr ⟨by simp, ?_⟩⟩
      show countFires i (s.fires ++
        s.pendingRequests.map (fun id => (id, Outcome.rejected disconnectMsg))) = 1
      rw [countFires_append, countFires_map_rejected]
      rcases hcase with ⟨hin, hc⟩ | ⟨hout, hc⟩
      · rw [hc, List.count_eq_one_of_mem hnd hin]
      · rw [hc, List.count_eq_zero_of_not_mem hout]
  | connect ws => exact h

theorem oneShot_run (s : RelayState) (i : String) (es : List Event)
    (h : OneShot i s) : OneShot i (run s es) := by
  induction es generalizing s with
  | nil => exact h
  | cons e t ih => exact ih (step s e) (oneShot_step s i e h)

/-- C1: for an identifier registered in the pending-request table, across
any sequence of response-delivery, timeout-firing, disconnect and
reconnect events, at most one continuation invocation for it is ever
recorded, and exactly one has been recorded precisely when its entry has
left the table (so the terminal event fires exactly one continuation
exactly once); delivering a response or firing a timer for an identifier
not in the table leaves the state unchanged, invoking nothing (the
handlers are total functions, so nothing throws). -/
theorem single_resolution_C1 (s : RelayState) (i : String) (es : List Event)
    (hnd : s.pendingRequests.Nodup) (hi : i ∈ s.pendingRequests)
    (h0 : countFires i s.fires = 0) :
    (countFires i (run s es).fires ≤ 1
      ∧ (i ∈ (run s es).pendingRequests ↔ countFires i (run s es).fires = 0))
    ∧ (∀ (t : RelayState) (m : PluginMessage), m.requestId = some i →
        i ∉ t.pendingRequests → handlePluginMessage t m = t)
    ∧ (∀ t : RelayState, i ∉ t.pendingRequests → timeoutFired t i = t) := by
  have h := oneShot_run s i es ⟨hnd, Or.inl ⟨hi, h0⟩⟩
  refine ⟨?_, ?_, ?_⟩
  · rcases h.2 with ⟨hin, hc⟩ | ⟨hout, hc⟩
    · exact ⟨by simp [hc], ⟨fun _ => hc, fun _ => hin⟩⟩
    · exact ⟨by simp [hc],
        ⟨fun hmem => absurd hmem hout,
         fun hc0 => absurd (hc ▸ hc0) one_ne_zero⟩⟩
  · exact fun t m hrid hmem => handlePluginMessage_eq_of_miss t m i hrid hmem
  · exact fun t hmem => timeoutFired_eq_of_miss t i hmem

/-- Witness for C1: concrete one-entry table, terminated by a disconnect. -/
theorem single_resolution_C1_witness :
    countFires "req-1" (run sampleState [Event.close]).fires ≤ 1
      ∧ ("req-1" ∈ (run sampleState [Event.close]).pendingRequests
          ↔ countFires "req-1" (run sampleState [Event.close]).fires = 0) :=
  (single_resolution_C1 sampleState "req-1" [Event.close]
    (by decide) (by decide) (by decide)).1

/-- C2 counterexample: on a concrete state with one pending entry, the
close-handler drain invokes the reject continuation while the entry is
still in the table (the loop body rejects first and deletes second), so
the claim that every completion path removes the entry before invoking
its continuation is false on the code. -/
theorem remove_then_act_C2_counterexample :
    invokesWhilePresent sampleState.pendingRequests (closeActions sampleState) = true := by
  decide

/-- C2 (amended): the matching-response path and the timeout path both
remove the table entry before invoking the continuation (no invocation
happens while the entry is present), but the disconnect drain invokes
each failure continuation before removing its entry (act-then-remove):
on any non-empty table its action trace contains an invocation performed
while the entry is still present. -/
theorem remove_then_act_C2 (s : RelayState) (m : PluginMessage) (rid : String)
    (hnd : s.pendingRequests.Nodup) :
    invokesWhilePresent s.pendingRequests (handlePluginMessageActions s m) = false
    ∧ invokesWhilePresent s.pendingRequests (timeoutActions s rid) = false
    ∧ (s.pendingRequests ≠ [] →
        invokesWhilePresent s.pendingRequests (closeActions s) = true) := by
  refine ⟨?_, ?_, ?_⟩
  · unfold handlePluginMessageActions
    split
    · split
      · split
        · simp [invokesWhilePresent, hnd.not_mem_erase]
        · rfl
      · rfl
    · rfl
  · unfold timeoutActions
    split
    · simp [invokesWhilePresent, hnd.not_mem_erase]
    · rfl
  · intro hne
    unfold closeActions
    cases hl : s.pendingRequests with
    | nil => exact absurd hl hne
    | cons a t => simp [invokesWhilePresent, List.flatMap_cons]

/-- Witness for C2 (amended), on the concrete one-entry state. -/
theorem remove_then_act_C2_witness :
    invokesWhilePresent sampleState.pendingRequests
        (handlePluginMessageActions sampleState (execResultMsg "req-1" none)) = false
    ∧ invokesWhilePresent sampleState.pendingRequests
        (timeoutActions sampleState "req-1") = false
    ∧ invokesWhilePresent sampleState.pendingRequests (closeActions sampleState) = true :=
  ⟨(remove_then_act_C2 sampleState (execResultMsg "req-1" none) "req-1" (by decide)).1,
   (remove_then_act_C2 sampleState (execResultMsg "req-1" none) "req-1" (by decide)).2.1,
   (remove_then_act_C2 sampleState (execResultMsg "req-1" none) "req-1" (by decide)).2.2
     (by decide)⟩

/-- C3: dispatching while no peer is connected (the slot is null or its
readyState is not OPEN) returns the not-connected rejection immediately
from the promise executor and leaves the whole state unchanged — in
particular no pending-table registration and no timer scheduling
happen, so nothing waits on the timeout duration. -/
theorem fast_failure_disconnected_C3 (s : RelayState) (rid : String)
    (h : isOpen s.figmaPlugin = false) :
    sendToPlugin s rid = (s, SendResult.rejectedNotConnected notConnectedMsg) := by
  unfold sendToPlugin
  cases hfp : s.figmaPlugin with
  | none => rfl
  | some c =>
      rw [hfp] at h
      simp only [isOpen, beq_eq_false_iff_ne, ne_eq] at h
      simp [h]

/-- Witness for C3: concrete state with no connection. -/
theorem fast_failure_disconnected_C3_witness :
    sendToPlugin sampleState "req-9"
      = (sampleState, SendResult.rejectedNotConnected notConnectedMsg) :=
  fast_failure_disconnected_C3 sampleState "req-9" (by decide)

/-- C4: the close handler first clears the connection slot (the clear is
the head of its action trace, before any drain invocation), then every
outstanding entry gets its failure continuation invoked with the
peer-disconnected error, and the table is left empty — no partial
survival, for a table of any size. -/
theorem drain_on_disconnect_C4 (s : RelayState) (hnd : s.pendingRequests.Nodup) :
    closeHandler s
      = { s with
          figmaPlugin := none
          pendingRequests := []
          fires := s.fires ++
            s.pendingRequests.map (fun id => (id, Outcome.rejected disconnectMsg)) }
    ∧ (closeActions s).head? = some Action.clearSlot :=
  ⟨closeHandler_eq s hnd, rfl⟩

/-- Witness for C4 on the concrete one-entry state. -/
theorem drain_on_disconnect_C4_witness :
    closeHandler sampleState
      = { sampleState with
          figmaPlugin := none
          pendingRequests := []
          fires := sampleState.fires ++
            sampleState.pendingRequests.map
              (fun id => (id, Outcome.rejected disconnectMsg)) }
    ∧ (closeActions sampleState).head? = some Action.clearSlot :=
  drain_on_disconnect_C4 sampleState (by decide)

/-- C5: when the timer of a request fires with its entry still in the
table, the entry is removed and its failure continuation is invoked with
the timeout error, after which the identifier is no longer in the table;
the timeout constant is 30000 milliseconds, and every dispatch schedules
exactly that duration (the timers log of a dispatch either is unchanged,
when dispatch fails fast, or gains one entry of duration
RESPONSE_TIMEOUT). -/
theorem timeout_removal_C5 (s : RelayState) (rid : String)
    (hnd : s.pendingRequests.Nodup) :
    (rid ∈ s.pendingRequests →
      timeoutFired s rid
        = { s with
            pendingRequests := s.pendingRequests.erase rid
            fires := s.fires ++ [(rid, Outcome.rejected timeoutMsg)] }
      ∧ rid ∉ (timeoutFired s rid).pendingRequests)
    ∧ RESPONSE_TIMEOUT = 30000
    ∧ ((sendToPlugin s rid).1.timers = s.timers
        ∨ (sendToPlugin s rid).1.timers = s.timers ++ [(rid, RESPONSE_TIMEOUT)]) := by
  refine ⟨?_, rfl, ?_⟩
  · intro hmem
    refine ⟨timeoutFired_eq_of_hit s rid hmem, ?_⟩
    rw [timeoutFired_eq_of_hit s rid hmem]
    exact hnd.not_mem_erase
  · cases hfp : s.figmaPlugin with
    | none => exact Or.inl (by simp [sendToPlugin, hfp])
    | some c =>
        by_cases hrs : c.readyState = ReadyState.opened
        · exact Or.inr (by simp [sendToPlugin, hfp, hrs])
        · exact Or.inl (by simp [sendToPlugin, hfp, hrs])

/-- Witness for C5 on the concrete one-entry state. -/
theorem timeout_removal_C5_witness :
    ("req-1" ∈ sampleState.pendingRequests →
      timeoutFired sampleState "req-1"
        = { sampleState with
            pendingRequests := sampleState.pendingRequests.erase "req-1"
            fires := sampleState.fires ++ [("req-1", Outcome.rejected timeoutMsg)] }
      ∧ "req-1" ∉ (timeoutFired sampleState "req-1").pendingRequests)
    ∧ RESPONSE_TIMEOUT = 30000
    ∧ ((sendToPlugin sampleState "req-1").1.timers = sampleState.timers
        ∨ (sendToPlugin sampleState "req-1").1.timers
            = sampleState.timers ++ [("req-1", RESPONSE_TIMEOUT)]) :=
  timeout_removal_C5 sampleState "req-1" (by decide)

/-- C6: with two distinct outstanding requests, delivering the response
of the second one first and the response of the first one afterwards
resolves each request with its own result payload: the fire log gains
exactly the two records, each pairing an identifier with the payload its
own response envelope carried. -/
theorem out_of_order_C6 (s : RelayState) (a b : String) (ra rb : Option String)
    (_hnd : s.pendingRequests.Nodup)
    (ha : a ∈ s.pendingRequests) (hb : b ∈ s.pendingRequests)
    (hab : a ≠ b) (ha0 : a ≠ "") (hb0 : b ≠ "") :
    handlePluginMessage (handlePluginMessage s (execResultMsg b rb)) (execResultMsg a ra)
      = { s with
          pendingRequests := (s.pendingRequests.erase b).erase a
          fires := s.fires ++ [(b, Outcome.resolved rb), (a, Outcome.resolved ra)] } := by
  have h2mem : a ∈ s.pendingRequests.erase b := (List.mem_erase_of_ne hab).2 ha
  rw [handlePluginMessage_eq_of_hit s (execResultMsg b rb) b rfl rfl hb0 hb]
  rw [handlePluginMessage_eq_of_hit _ (execResultMsg a ra) a rfl rfl ha0 h2mem]
  simp [execResultMsg, truthy]

/-- Witness for C6 on a concrete two-entry state with swapped delivery. -/
theorem out_of_order_C6_witness :
    handlePluginMessage
        (handlePluginMessage sampleState2 (execResultMsg "req-B" (some "payload-B")))
        (execResultMsg "req-A" (some "payload-A"))
      = { sampleState2 with
          pendingRequests := (sampleState2.pendingRequests.erase "req-B").erase "req-A"
          fires := sampleState2.fires ++
            [("req-B", Outcome.resolved (some "payload-B")),
             ("req-A", Outcome.resolved (some "payload-A"))] } :=
  out_of_order_C6 sampleState2 "req-A" "req-B" (some "payload-A") (some "payload-B")
    (by decide) (by decide) (by decide) (by decide) (by decide) (by decide)

/-- C7: accepting a connection replaces the slot unconditionally —
accepting X and then Y leaves Y as the stored handle, so a subsequent
dispatch transmits its frame on Y — and acceptance leaves the pending
table and the continuation log untouched (no entry removed or
rejected). -/
theorem reconnect_supersedes_C7 (s : RelayState) (x y : Conn) (rid : String) :
    (connectionHandler (connectionHandler s x) y).figmaPlugin = some y
    ∧ (connectionHandler (connectionHandler s x) y).pendingRequests = s.pendingRequests
    ∧ (connectionHandler (connectionHandler s x) y).fires = s.fires
    ∧ (connectionHandler s x).pendingRequests = s.pendingRequests
    ∧ (connectionHandler s x).fires = s.fires
    ∧ (y.readyState = ReadyState.opened →
        (sendToPlugin (connectionHandler (connectionHandler s x) y) rid).1.sent
          = s.sent ++ [(y.connId, rid)]) := by
  refine ⟨rfl, rfl, rfl, rfl, rfl, ?_⟩
  intro hy
  simp [connectionHandler, sendToPlugin, hy]

/-- Witness for C7: accept X then Y on the concrete state, dispatch. -/
theorem reconnect_supersedes_C7_witness :
    (connectionHandler (connectionHandler sampleState connX) connY).figmaPlugin = some connY
    ∧ (connectionHandler (connectionHandler sampleState connX) connY).pendingRequests
        = sampleState.pendingRequests
    ∧ (connectionHandler (connectionHandler sampleState connX) connY).fires
        = sampleState.fires
    ∧ (connectionHandler sampleState connX).pendingRequests = sampleState.pendingRequests
    ∧ (connectionHandler sampleState connX).fires = sampleState.fires
    ∧ (connY.readyState = ReadyState.opened →
        (sendToPlugin (connectionHandler (connectionHandler sampleState connX) connY)
            "req-9").1.sent
          = sampleState.sent ++ [(connY.connId, "req-9")]) :=
  reconnect_supersedes_C7 sampleState connX connY "req-9"

/-- C8: the tool-listing handler is independent of the relay state (the
same list for any two states — it reads neither the slot nor the table),
that list enumerates exactly the thirteen supported operation names with
their argument schemas, and the connectivity check get_figma_state on a
state with no peer succeeds (isError false) reporting connected false
and ready false. -/
theorem discovery_unconnected_C8 :
    (∀ s t : RelayState, listToolsHandler s = listToolsHandler t)
    ∧ (∀ s : RelayState, (listToolsHandler s).map ToolDecl.name = knownToolNames)
    ∧ (∀ (s : RelayState) (o : Outcome), s.figmaPlugin = none →
        callToolHandler s "get_figma_state" o
          = { content := ContentText.stateJson false false notConnectedMsg
              isError := false }) := by
  refine ⟨fun s t => rfl, fun s => rfl, ?_⟩
  intro s o h
  have hbase : callToolHandler s "get_figma_state" o
      = { content := ContentText.stateJson (isOpen s.figmaPlugin) (isOpen s.figmaPlugin)
            (if isOpen s.figmaPlugin then connectedReadyMsg else notConnectedMsg)
          isError := false } := rfl
  rw [hbase, h]
  rfl

/-- Witness for C8 on the concrete unconnected state. -/
theorem discovery_unconnected_C8_witness :
    callToolHandler sampleState "get_figma_state" (Outcome.resolved none)
      = { content := ContentText.stateJson false false notConnectedMsg
          isError := false } :=
  discovery_unconnected_C8.2.2 sampleState (Outcome.resolved none) rfl

theorem tryCallTool_ok (s : RelayState) (name : String) (o : Outcome)
    (r : ToolCallResult) (h : tryCallTool s name o = Except.ok r) :
    r.isError = false := by
  unfold tryCallTool at h
  split at h <;> (try cases o) <;>
    (try exact Except.noConfusion h) <;>
    (injection h with h2; subst h2; rfl)

/-- C9: the call-tool handler never lets an exception escape: for every
tool name and every dispatch outcome (a resolution, or a rejection
carrying a not-connected, timeout, disconnect or remote error message)
it returns either a success result or a structured error response with
isError true and the stringified message; in particular an unknown tool
name yields the structured Unknown tool error. -/
theorem facade_never_throws_C9 (s : RelayState) (name : String) (o : Outcome) :
    ((callToolHandler s name o).isError = false
      ∨ ∃ msg, callToolHandler s name o
          = { content := ContentText.errorJson msg, isError := true })
    ∧ (name ∉ knownToolNames →
        callToolHandler s name o
          = { content := ContentText.errorJson ("Unknown tool: " ++ name)
              isError := true }) := by
  constructor
  · cases h : tryCallTool s name o with
    | ok r =>
        have hh : callToolHandler s name o = r := by
          unfold callToolHandler
          rw [h]
        rw [hh]
        exact Or.inl (tryCallTool_ok s name o r h)
    | error msg =>
        refine Or.inr ⟨msg, ?_⟩
        unfold callToolHandler
        rw [h]
  · intro hname
    have ht : tryCallTool s name o = Except.error ("Unknown tool: " ++ name) := by
      unfold tryCallTool
      split <;>
        first
          | rfl
          | (exact absurd (by simp_all [knownToolNames]) hname)
    unfold callToolHandler
    rw [ht]

/-- Witness for C9: an unknown tool name on the concrete state. -/
theorem facade_never_throws_C9_witness :
    callToolHandler sampleState "bogus_tool" (Outcome.rejected timeoutMsg)
      = { content := ContentText.errorJson ("Unknown tool: " ++ "bogus_tool")
          isError := true } :=
  (facade_never_throws_C9 sampleState "bogus_tool" (Outcome.rejected timeoutMsg)).2
    (by decide)

/-- C10: the response dispatcher discriminates on the truthiness of the
error field, not its presence: an execution_result whose error field is
present but empty resolves the pending request with its result payload
(possibly undefined), while a non-empty error string rejects it with the
peer message, appending the stack trace when a non-empty one is
supplied. -/
theorem error_truthiness_C10 (s : RelayState) (rid : String) (r : Option String)
    (stk : Option String) (hrid : rid ≠ "") (hmem : rid ∈ s.pendingRequests) :
    (handlePluginMessage s
        { type := "execution_result", requestId := some rid, result := r,
          error := some "", stack := stk }).fires
      = s.fires ++ [(rid, Outcome.resolved r)]
    ∧ (∀ e : String, e ≠ "" →
        (handlePluginMessage s
            { type := "execution_result", requestId := some rid, result := r,
              error := some e, stack := none }).fires
          = s.fires ++ [(rid, Outcome.rejected e)])
    ∧ (∀ e t : String, e ≠ "" → t ≠ "" →
        (handlePluginMessage s
            { type := "execution_result", requestId := some rid, result := r,
              error := some e, stack := some t }).fires
          = s.fires ++ [(rid, Outcome.rejected (e ++ "\nStack trace:\n" ++ t))]) := by
  refine ⟨?_, ?_, ?_⟩
  · rw [handlePluginMessage_eq_of_hit s _ rid rfl rfl hrid hmem]
    simp [truthy]
  · intro e he
    rw [handlePluginMessage_eq_of_hit s _ rid rfl rfl hrid hmem]
    simp [truthy, remoteErrorMsg, he]
  · intro e t he hts
    rw [handlePluginMessage_eq_of_hit s _ rid rfl rfl hrid hmem]
    simp [truthy, remoteErrorMsg, he, hts, String.append_assoc]

/-- Witness for C10 on the concrete one-entry state. -/
theorem error_truthiness_C10_witness :
    (handlePluginMessage sampleState
        { type := "execution_result", requestId := some "req-1", result := none,
          error := some "", stack := none }).fires
      = sampleState.fires ++ [("req-1", Outcome.resolved none)] :=
  (error_truthiness_C10 sampleState "req-1" none none (by decide) (by decide)).1

end FigmaBridge
